import Mathlib

/-!
Verification of the sampling-and-alerting engine of `sysmon.py`
(`class ResourceMonitor`).  Times, percentages and byte counters are
modelled as rationals / integers; the Python floats of the source are
mapped to exact rational arithmetic.  Every definition below is a direct
translation of the corresponding lines of `src/sysmon.py`.
-/

/-- Cumulative network byte counters, as returned by
`psutil.net_io_counters()` (fields `bytes_sent`, `bytes_recv`). -/
structure NetCounters where
  bytes_sent : Int
  bytes_recv : Int
deriving Repr, DecidableEq

/-- The mutable state of `ResourceMonitor` (its `self.*` attributes),
as initialised by `ResourceMonitor.__init__` (src/sysmon.py lines
236-255).  The `_thread` handle is abstracted into the `running` flag;
thread spawning is reported separately by `ResourceMonitor.start`. -/
structure ResourceMonitor where
  cpu_threshold : ℚ
  mem_threshold : ℚ
  interval : Int
  rate_limit_sec : Int
  notify_interval_sec : Int
  running : Bool
  last_alert : Option ℚ
  alerting : Bool
  last_net_counters : Option NetCounters
  last_net_time : Option ℚ
deriving Repr, DecidableEq

/-- `ResourceMonitor.__init__(cpu_threshold, mem_threshold, interval,
rate_limit_min, notify_interval_sec, ...)` (src/sysmon.py lines 236-255).
The constructor body is total: it clamps `interval` with
`max(1, int(interval))`, `rate_limit_min*60` with `max(0, ...)` and
`notify_interval_sec` with `max(1, ...)`, and raises no exception, so the
embedding always returns `Except.ok`. -/
def ResourceMonitor.init (cpu_threshold mem_threshold : ℚ)
    (interval rate_limit_min notify_interval_sec : Int) :
    Except String ResourceMonitor :=
  Except.ok
    { cpu_threshold := cpu_threshold
      mem_threshold := mem_threshold
      interval := max 1 interval
      rate_limit_sec := max 0 (rate_limit_min * 60)
      notify_interval_sec := max 1 notify_interval_sec
      running := false
      last_alert := none
      alerting := false
      last_net_counters := none
      last_net_time := none }

/-- The monitor produced by the constructor defaults
(`cpu_threshold=90, mem_threshold=70, interval=1, rate_limit_min=5,
notify_interval_sec=10`). -/
def defaultMonitor : ResourceMonitor :=
  { cpu_threshold := 90
    mem_threshold := 70
    interval := 1
    rate_limit_sec := 300
    notify_interval_sec := 10
    running := false
    last_alert := none
    alerting := false
    last_net_counters := none
    last_net_time := none }

/-- `ResourceMonitor.start` (src/sysmon.py lines 257-263): if already
running, return immediately; otherwise set the running flag and spawn
the sampling thread.  The boolean component records whether a new
thread was spawned by this call. -/
def ResourceMonitor.start (m : ResourceMonitor) : ResourceMonitor × Bool :=
  if m.running then (m, false)
  else ({ m with running := true }, true)

/-- The epsilon used to clamp the elapsed time from below:
`elapsed = max(1e-6, now_ts - self._last_net_time)` (line 289). -/
def EPS : ℚ := 1 / 1000000

/-- Result of the per-tick network-rate computation: the two published
rates plus the updated `_last_net_io` / `_last_net_time` fields. -/
structure NetRateResult where
  up_bps : ℚ
  down_bps : ℚ
  last_net_counters : Option NetCounters
  last_net_time : Option ℚ
deriving Repr, DecidableEq

/-- The network-rate block of `ResourceMonitor._loop`
(src/sysmon.py lines 286-303):

    up_bps = down_bps = 0.0
    if net_io:
        if self._last_net_io is not None and self._last_net_time is not None:
            elapsed = max(1e-6, now_ts - self._last_net_time)
            delta_sent = float(net_io.bytes_sent - self._last_net_io.bytes_sent)
            delta_recv = float(net_io.bytes_recv - self._last_net_io.bytes_recv)
            up_bps = delta_sent / elapsed
            down_bps = delta_recv / elapsed
        self._last_net_io = net_io
        self._last_net_time = now_ts

The deltas are signed: a counter decrease gives a negative delta, which
is divided as-is (the `try/except` around the arithmetic never fires on
integer subtraction, so it is not modelled as a fallible branch). -/
def computeNetRates (m : ResourceMonitor) (net_io : Option NetCounters)
    (now_ts : ℚ) : NetRateResult :=
  match net_io with
  | none =>
      { up_bps := 0, down_bps := 0
        last_net_counters := m.last_net_counters
        last_net_time := m.last_net_time }
  | some nio =>
    match m.last_net_counters, m.last_net_time with
    | some prev, some t0 =>
        let elapsed := max EPS (now_ts - t0)
        let delta_sent : ℚ := ((nio.bytes_sent - prev.bytes_sent : Int) : ℚ)
        let delta_recv : ℚ := ((nio.bytes_recv - prev.bytes_recv : Int) : ℚ)
        { up_bps := delta_sent / elapsed
          down_bps := delta_recv / elapsed
          last_net_counters := some nio
          last_net_time := some now_ts }
    | _, _ =>
        { up_bps := 0, down_bps := 0
          last_net_counters := some nio
          last_net_time := some now_ts }

/-- The snapshot field `info['net_upload_bps']` as read back with
`info.get('net_upload_bps')` (lines 304 and 354/479): the key is always
assigned the numeric `up_bps`, so the lookup always yields a value. -/
def info_net_upload_bps (r : NetRateResult) : Option ℚ := some r.up_bps

/-- The snapshot field `info['net_download_bps']` (lines 305 and
355/480), always assigned the numeric `down_bps`. -/
def info_net_download_bps (r : NetRateResult) : Option ℚ := some r.down_bps

/-- The alerting-related state touched by the threshold block of the
loop: `self._last_alert` and `self._alerting`. -/
structure AlertState where
  last_alert : Option ℚ
  alerting : Bool
deriving Repr, DecidableEq

/-- Result of one threshold evaluation: the updated alert state and the
number of notification attempts made (calls to
`send_windows_notification`). -/
structure EvalResult where
  state : AlertState
  notifications : Nat
deriving Repr, DecidableEq

/-- `can_send = (self._last_alert is None) or
((now - self._last_alert).total_seconds() >= self.notify_interval_sec)`
(src/sysmon.py line 348). -/
def canSend (last_alert : Option ℚ) (now : ℚ) (notify_interval_sec : Int) :
    Bool :=
  match last_alert with
  | none => true
  | some t => decide ((notify_interval_sec : ℚ) ≤ now - t)

/-- The trigger block of `ResourceMonitor._loop`
(src/sysmon.py lines 335-374), for one tick:

* `trigger_reasons` is non-empty iff `cpu >= self.cpu_threshold` or
  `mem >= self.mem_threshold` (lines 336-341);
* if a breach is detected but `cpu <= 0.0 and mem <= 0.0`, the alert is
  suppressed (log only, lines 344-346);
* otherwise, if `can_send`, exactly one combined notification is
  attempted (line 363); both the success and the failure branch set
  `self._last_alert = now` and `self._alerting = True` (lines 364-372);
* if not `can_send`, the alert is suppressed by the rate limit (line 374).

`notify_success` is the boolean returned by `send_windows_notification`. -/
def triggerStep (m : ResourceMonitor) (st : AlertState)
    (now cpu mem : ℚ) (notify_success : Bool) : EvalResult :=
  if m.cpu_threshold ≤ cpu ∨ m.mem_threshold ≤ mem then
    if cpu ≤ 0 ∧ mem ≤ 0 then
      EvalResult.mk st 0
    else if canSend st.last_alert now m.notify_interval_sec then
      if notify_success then
        EvalResult.mk (AlertState.mk (some now) true) 1
      else
        EvalResult.mk (AlertState.mk (some now) true) 1
    else
      EvalResult.mk st 0
  else EvalResult.mk st 0

/-- The hysteresis-clearing block (src/sysmon.py lines 279-280 and
376-378): `if self._alerting and cpu < clear_cpu and mem < clear_mem`
the alerting flag is cleared with only a log event, where
`clear_cpu = max(0, self.cpu_threshold - 15)` and
`clear_mem = max(0, self.mem_threshold - 15)`. -/
def clearStep (m : ResourceMonitor) (cpu mem : ℚ) (r : EvalResult) :
    EvalResult :=
  if r.state.alerting = true ∧ cpu < max 0 (m.cpu_threshold - 15) ∧
      mem < max 0 (m.mem_threshold - 15) then
    EvalResult.mk (AlertState.mk r.state.last_alert false) r.notifications
  else r

/-- The full threshold-evaluation part of one tick of
`ResourceMonitor._loop` (src/sysmon.py lines 335-378): the trigger block
followed by the hysteresis-clearing block. -/
def evaluateThresholds (m : ResourceMonitor) (st : AlertState)
    (now cpu mem : ℚ) (notify_success : Bool) : EvalResult :=
  clearStep m cpu mem (triggerStep m st now cpu mem notify_success)

/-- Lines 329-333 followed by the threshold block: the Observer callback
`self.on_update(info)` runs inside `try ... except Exception: pass`, so
whether it returns normally or raises, the tick continues into
`evaluateThresholds` with the same state. -/
def tickObserveAndEvaluate (obs : Except String Unit) (m : ResourceMonitor)
    (st : AlertState) (now cpu mem : ℚ) (notify_success : Bool) : EvalResult :=
  match obs with
  | Except.ok _ => evaluateThresholds m st now cpu mem notify_success
  | Except.error _ => evaluateThresholds m st now cpu mem notify_success

/-- The number of `self._log` calls made by the observer block
(src/sysmon.py lines 329-333) while dispatching the Observer callback:

    if self.on_update:
        try:
            self.on_update(info)
        except Exception:
            pass

The `except` handler body is `pass`, so neither the normal path nor the
raising path makes any log call: the exception is swallowed silently. -/
def observerBlockLogs (obs : Except String Unit) : Nat :=
  match obs with
  | Except.ok _ => 0
  | Except.error _ => 0

/-! ### Helper lemmas -/

/-- A breached metric can never simultaneously satisfy its clear
condition, for non-negative readings: if `t ≤ x` and `0 ≤ x` then
`¬ x < max 0 (t - 15)`. -/
lemma breach_not_below_clear (t x : ℚ) (hx : 0 ≤ x) (h : t ≤ x) :
    ¬ x < max 0 (t - 15) := by
  rcases le_or_lt (t - 15) 0 with h0 | h0
  · rw [max_eq_left h0]
    exact not_lt.mpr hx
  · rw [max_eq_right h0.le]
    intro hlt
    linarith

/-- If a breach is detected (`trigger_reasons` non-empty) and both
readings are non-negative, the clearing condition of lines 376-378 is
false. -/
lemma breach_blocks_clear (ct mt cpu mem : ℚ) (hc : 0 ≤ cpu) (hm : 0 ≤ mem)
    (h : ct ≤ cpu ∨ mt ≤ mem) :
    ¬ (cpu < max 0 (ct - 15) ∧ mem < max 0 (mt - 15)) := by
  rintro ⟨h1, h2⟩
  rcases h with h | h
  · exact breach_not_below_clear ct cpu hc h h1
  · exact breach_not_below_clear mt mem hm h h2

/-- A concrete monitor state whose previous network sample holds
counters `(100, 100)` captured at time `0`. -/
def monitorPrev100 : ResourceMonitor :=
  { defaultMonitor with
      last_net_counters := some (NetCounters.mk 100 100)
      last_net_time := some 0 }

/-! ### C1 — sign of the published rates -/

/-- Claim C1 (counterexample): with a previous sample of 100 bytes at
time 0 and a current sample of 0 bytes at time 1 (a counter reset,
`curr.bytes < prev.bytes`), the loop publishes `up_bps = down_bps =
-100`, a strictly negative rate — not 0.  The claim that the published
rates are always `≥ 0` is false of the code. -/
theorem c1_counterexample :
    (computeNetRates monitorPrev100 (some (NetCounters.mk 0 0)) 1).up_bps = -100 ∧
    (computeNetRates monitorPrev100 (some (NetCounters.mk 0 0)) 1).down_bps = -100 ∧
    ¬ (0 ≤ (computeNetRates monitorPrev100 (some (NetCounters.mk 0 0)) 1).up_bps) := by
  refine ⟨?_, ?_, ?_⟩ <;> norm_num [computeNetRates, monitorPrev100, defaultMonitor, EPS]

/-- Claim C1 (amended): the published rate is non-negative whenever the
current counter is at least the previous one, and strictly negative
whenever the counter decreased (the code divides the signed delta
without clamping at 0). -/
theorem c1_amended (m : ResourceMonitor) (prev nio : NetCounters) (t0 now : ℚ)
    (hio : m.last_net_counters = some prev) (ht : m.last_net_time = some t0) :
    (prev.bytes_sent ≤ nio.bytes_sent →
      0 ≤ (computeNetRates m (some nio) now).up_bps) ∧
    (nio.bytes_sent < prev.bytes_sent →
      (computeNetRates m (some nio) now).up_bps < 0) ∧
    (prev.bytes_recv ≤ nio.bytes_recv →
      0 ≤ (computeNetRates m (some nio) now).down_bps) ∧
    (nio.bytes_recv < prev.bytes_recv →
      (computeNetRates m (some nio) now).down_bps < 0) := by
  have hpos : (0 : ℚ) < max EPS (now - t0) :=
    lt_of_lt_of_le (by norm_num [EPS]) (le_max_left _ _)
  simp only [computeNetRates, hio, ht]
  refine ⟨?_, ?_, ?_, ?_⟩
  · intro h
    exact div_nonneg (by exact_mod_cast sub_nonneg.mpr h) hpos.le
  · intro h
    exact div_neg_of_neg_of_pos (by exact_mod_cast sub_neg.mpr h) hpos
  · intro h
    exact div_nonneg (by exact_mod_cast sub_nonneg.mpr h) hpos.le
  · intro h
    exact div_neg_of_neg_of_pos (by exact_mod_cast sub_neg.mpr h) hpos

/-- Witness for `c1_amended` at a concrete monitor state. -/
theorem c1_amended_witness :
    0 ≤ (computeNetRates monitorPrev100 (some (NetCounters.mk 150 200)) 1).up_bps :=
  (c1_amended monitorPrev100 (NetCounters.mk 100 100) (NetCounters.mk 150 200)
    0 1 rfl rfl).1 (by norm_num)

/-! ### C2 — first-tick rates -/

/-- Claim C2 (counterexample): on the very first tick (no previous
counter sample: `defaultMonitor` has `last_net_counters = none`), the
published snapshot fields `net_upload_bps` / `net_download_bps` are the
numeric value `0.0` (`some 0`), not `None`/absent. -/
theorem c2_counterexample :
    info_net_upload_bps (computeNetRates defaultMonitor (some (NetCounters.mk 1000 2000)) 5)
      = some 0 ∧
    info_net_download_bps (computeNetRates defaultMonitor (some (NetCounters.mk 1000 2000)) 5)
      = some 0 ∧
    info_net_upload_bps (computeNetRates defaultMonitor (some (NetCounters.mk 1000 2000)) 5)
      ≠ none := by
  refine ⟨rfl, rfl, ?_⟩
  simp [info_net_upload_bps]

/-- Claim C2 (amended): on the very first sampling tick (no previous
counter sample stored) the rate computation returns `0.0` for both
rates, and the snapshot fields are present with value `some 0`, not
`None`. -/
theorem c2_amended (m : ResourceMonitor) (net_io : Option NetCounters) (now : ℚ)
    (h : m.last_net_counters = none) :
    (computeNetRates m net_io now).up_bps = 0 ∧
    (computeNetRates m net_io now).down_bps = 0 ∧
    info_net_upload_bps (computeNetRates m net_io now) = some 0 ∧
    info_net_download_bps (computeNetRates m net_io now) = some 0 := by
  cases net_io with
  | none => simp [computeNetRates, info_net_upload_bps, info_net_download_bps]
  | some nio =>
      simp [computeNetRates, h, info_net_upload_bps, info_net_download_bps]

/-- Witness for `c2_amended` at the default (freshly constructed)
monitor. -/
theorem c2_amended_witness :
    (computeNetRates defaultMonitor (some (NetCounters.mk 42 7)) 3).up_bps = 0 :=
  (c2_amended defaultMonitor (some (NetCounters.mk 42 7)) 3 rfl).1

/-! ### C6 — exact rate formula with clamped elapsed time -/

/-- Claim C6: for successive counter samples with `curr.bytes ≥
prev.bytes`, the computed rate is exactly `(curr.bytes - prev.bytes) /
elapsed` where `elapsed = max(1e-6, now - t0)` is clamped below by the
epsilon `1e-6` and hence strictly positive — the division is never by
zero. -/
theorem c6_rate_formula (m : ResourceMonitor) (prev nio : NetCounters)
    (t0 now : ℚ)
    (hio : m.last_net_counters = some prev) (ht : m.last_net_time = some t0)
    (hs : prev.bytes_sent ≤ nio.bytes_sent)
    (hr : prev.bytes_recv ≤ nio.bytes_recv) :
    (computeNetRates m (some nio) now).up_bps
      = ((nio.bytes_sent - prev.bytes_sent : Int) : ℚ) / max EPS (now - t0) ∧
    (computeNetRates m (some nio) now).down_bps
      = ((nio.bytes_recv - prev.bytes_recv : Int) : ℚ) / max EPS (now - t0) ∧
    0 < max EPS (now - t0) := by
  simp only [computeNetRates, hio, ht]
  exact ⟨trivial, trivial, lt_of_lt_of_le (by norm_num [EPS]) (le_max_left _ _)⟩

/-- Witness for `c6_rate_formula`: with counters rising from 100 to 150
over 1 second the published upload rate is 50 bytes/sec. -/
theorem c6_rate_formula_witness :
    (computeNetRates monitorPrev100 (some (NetCounters.mk 150 300)) 1).up_bps
      = ((150 - 100 : Int) : ℚ) / max EPS (1 - 0) :=
  (c6_rate_formula monitorPrev100 (NetCounters.mk 100 100) (NetCounters.mk 150 300)
    0 1 rfl rfl (by norm_num) (by norm_num)).1

/-! ### Characterisation lemmas for the trigger and clear blocks -/

/-- `can_send` holds iff every stored last-alert time is at least
`notify_interval_sec` seconds in the past. -/
lemma canSend_iff (la : Option ℚ) (now : ℚ) (n : Int) :
    canSend la now n = true ↔ ∀ t, la = some t → (n : ℚ) ≤ now - t := by
  cases la <;> simp [canSend]

/-- The trigger block fires exactly one notification when a breach is
detected, the readings are not both zero, and the rate limit allows it. -/
lemma triggerStep_fire (m : ResourceMonitor) (st : AlertState)
    (now cpu mem : ℚ) (ok : Bool)
    (htrig : m.cpu_threshold ≤ cpu ∨ m.mem_threshold ≤ mem)
    (hnz : ¬ (cpu ≤ 0 ∧ mem ≤ 0))
    (hsend : canSend st.last_alert now m.notify_interval_sec = true) :
    triggerStep m st now cpu mem ok
      = EvalResult.mk (AlertState.mk (some now) true) 1 := by
  unfold triggerStep
  rw [if_pos htrig, if_neg hnz, if_pos hsend]
  cases ok <;> rfl

/-- Without a breach the trigger block leaves the state alone. -/
lemma triggerStep_no_trigger (m : ResourceMonitor) (st : AlertState)
    (now cpu mem : ℚ) (ok : Bool)
    (h : ¬ (m.cpu_threshold ≤ cpu ∨ m.mem_threshold ≤ mem)) :
    triggerStep m st now cpu mem ok = EvalResult.mk st 0 := by
  unfold triggerStep
  rw [if_neg h]

/-- The degenerate-startup guard: a breach with both readings zero-or-
below is suppressed and the state is untouched. -/
lemma triggerStep_zero_guard (m : ResourceMonitor) (st : AlertState)
    (now cpu mem : ℚ) (ok : Bool)
    (htrig : m.cpu_threshold ≤ cpu ∨ m.mem_threshold ≤ mem)
    (hz : cpu ≤ 0 ∧ mem ≤ 0) :
    triggerStep m st now cpu mem ok = EvalResult.mk st 0 := by
  unfold triggerStep
  rw [if_pos htrig, if_pos hz]

/-- A breach inside the rate-limit window is suppressed and the state is
untouched. -/
lemma triggerStep_rate_limited (m : ResourceMonitor) (st : AlertState)
    (now cpu mem : ℚ) (ok : Bool)
    (htrig : m.cpu_threshold ≤ cpu ∨ m.mem_threshold ≤ mem)
    (hnz : ¬ (cpu ≤ 0 ∧ mem ≤ 0))
    (hsend : canSend st.last_alert now m.notify_interval_sec = false) :
    triggerStep m st now cpu mem ok = EvalResult.mk st 0 := by
  unfold triggerStep
  rw [if_pos htrig, if_neg hnz, if_neg (by simp [hsend])]

/-- The trigger block behaves identically whether the notifier reports
success or failure. -/
lemma triggerStep_success_irrelevant (m : ResourceMonitor) (st : AlertState)
    (now cpu mem : ℚ) :
    triggerStep m st now cpu mem true = triggerStep m st now cpu mem false := by
  unfold triggerStep
  split_ifs <;> rfl

/-- The trigger block never attempts more than one notification. -/
lemma triggerStep_le_one (m : ResourceMonitor) (st : AlertState)
    (now cpu mem : ℚ) (ok : Bool) :
    (triggerStep m st now cpu mem ok).notifications ≤ 1 := by
  unfold triggerStep
  split_ifs <;> simp

/-- If the state was alerting going in, it is still alerting after the
trigger block (only the clear block resets the flag). -/
lemma triggerStep_alerting_mono (m : ResourceMonitor) (st : AlertState)
    (now cpu mem : ℚ) (ok : Bool) (ha : st.alerting = true) :
    (triggerStep m st now cpu mem ok).state.alerting = true := by
  unfold triggerStep
  split_ifs <;> simp [ha]

/-- The clear block never changes the notification count. -/
lemma clearStep_notifications (m : ResourceMonitor) (cpu mem : ℚ)
    (r : EvalResult) :
    (clearStep m cpu mem r).notifications = r.notifications := by
  unfold clearStep
  split_ifs <;> rfl

/-- The clear block never changes the stored last-alert time. -/
lemma clearStep_last_alert (m : ResourceMonitor) (cpu mem : ℚ)
    (r : EvalResult) :
    (clearStep m cpu mem r).state.last_alert = r.state.last_alert := by
  unfold clearStep
  split_ifs <;> rfl

/-- When its condition fails, the clear block is the identity. -/
lemma clearStep_id (m : ResourceMonitor) (cpu mem : ℚ) (r : EvalResult)
    (h : ¬ (r.state.alerting = true ∧ cpu < max 0 (m.cpu_threshold - 15) ∧
      mem < max 0 (m.mem_threshold - 15))) :
    clearStep m cpu mem r = r := by
  unfold clearStep
  rw [if_neg h]

/-- For a currently-alerting result, the clear block resets the flag
exactly when both metrics are below their clamped clear thresholds. -/
lemma clearStep_alerting_iff (m : ResourceMonitor) (cpu mem : ℚ)
    (r : EvalResult) (ha : r.state.alerting = true) :
    (clearStep m cpu mem r).state.alerting = false ↔
      (cpu < max 0 (m.cpu_threshold - 15) ∧ mem < max 0 (m.mem_threshold - 15)) := by
  unfold clearStep
  split_ifs with h
  · simpa using h.2
  · constructor
    · intro hfalse
      rw [ha] at hfalse
      simp at hfalse
    · intro hcl
      exact absurd ⟨ha, hcl⟩ h

/-- For non-negative readings, being below the clamped clear threshold
`max 0 (t - 15)` is the same as being below `t - 15`. -/
lemma lt_clear_iff (t x : ℚ) (hx : 0 ≤ x) :
    x < max 0 (t - 15) ↔ x < t - 15 := by
  rcases le_or_lt (t - 15) 0 with h | h
  · rw [max_eq_left h]
    constructor
    · intro hlt
      linarith
    · intro hlt
      linarith
  · rw [max_eq_right h.le]

/-! ### Concrete states used by witnesses -/

/-- The alert state of a freshly constructed monitor: no last alert,
not alerting. -/
def idleState : AlertState := AlertState.mk none false

/-- An alert state that fired at time 0 and is currently alerting. -/
def alertingState : AlertState := AlertState.mk (some 0) true

/-- An alert state whose last alert was at time 0 but whose alerting
flag has been cleared. -/
def recentAlertState : AlertState := AlertState.mk (some 0) false

/-- The default monitor with both fire thresholds set to 0. -/
def zeroThresholdMonitor : ResourceMonitor :=
  { defaultMonitor with cpu_threshold := 0, mem_threshold := 0 }

/-- The default monitor with the sampling loop already running. -/
def runningMonitor : ResourceMonitor := { defaultMonitor with running := true }

/-! ### C3 — single combined notification, fire condition, rate limit -/

/-- Claim C3: on every tick exactly one combined notification is
attempted iff (cpu ≥ cpuFireThreshold ∨ mem ≥ memFireThreshold) ∧
¬(cpu ≤ 0 ∧ mem ≤ 0) ∧ (lastAlertTime is None ∨ elapsed ≥
notifyIntervalSeconds); at most one notification is ever attempted per
tick (simultaneous CPU+memory breaches give one combined alert); when a
notification is attempted, lastAlertTime is set to now and the alerting
flag to true; and the outcome is identical whether the Notifier reports
success or failure. -/
theorem c3_one_combined_notification (m : ResourceMonitor) (st : AlertState)
    (now cpu mem : ℚ) (ok : Bool) (hc : 0 ≤ cpu) (hm : 0 ≤ mem) :
    ((evaluateThresholds m st now cpu mem ok).notifications = 1 ↔
      ((m.cpu_threshold ≤ cpu ∨ m.mem_threshold ≤ mem) ∧
       ¬ (cpu ≤ 0 ∧ mem ≤ 0) ∧
       (∀ t, st.last_alert = some t → (m.notify_interval_sec : ℚ) ≤ now - t))) ∧
    (evaluateThresholds m st now cpu mem ok).notifications ≤ 1 ∧
    ((evaluateThresholds m st now cpu mem ok).notifications = 1 →
      (evaluateThresholds m st now cpu mem ok).state.last_alert = some now ∧
      (evaluateThresholds m st now cpu mem ok).state.alerting = true) ∧
    evaluateThresholds m st now cpu mem true
      = evaluateThresholds m st now cpu mem false := by
  have hok : evaluateThresholds m st now cpu mem true
      = evaluateThresholds m st now cpu mem false := by
    unfold evaluateThresholds
    rw [triggerStep_success_irrelevant]
  have hle : (evaluateThresholds m st now cpu mem ok).notifications ≤ 1 := by
    unfold evaluateThresholds
    rw [clearStep_notifications]
    exact triggerStep_le_one m st now cpu mem ok
  by_cases htrig : m.cpu_threshold ≤ cpu ∨ m.mem_threshold ≤ mem
  · by_cases hz : cpu ≤ 0 ∧ mem ≤ 0
    · have hn : (evaluateThresholds m st now cpu mem ok).notifications = 0 := by
        unfold evaluateThresholds
        rw [triggerStep_zero_guard m st now cpu mem ok htrig hz,
          clearStep_notifications]
      refine ⟨?_, hle, ?_, hok⟩
      · rw [hn]
        exact iff_of_false (by norm_num) (by rintro ⟨-, hnz, -⟩; exact hnz hz)
      · intro h1
        rw [hn] at h1
        exact absurd h1 (by norm_num)
    · by_cases hsend : canSend st.last_alert now m.notify_interval_sec = true
      · have he : evaluateThresholds m st now cpu mem ok
            = EvalResult.mk (AlertState.mk (some now) true) 1 := by
          unfold evaluateThresholds
          rw [triggerStep_fire m st now cpu mem ok htrig hz hsend]
          exact clearStep_id m cpu mem _ (by
            rintro ⟨-, h1, h2⟩
            exact breach_blocks_clear m.cpu_threshold m.mem_threshold cpu mem
              hc hm htrig ⟨h1, h2⟩)
        refine ⟨?_, hle, ?_, hok⟩
        · rw [he]
          exact iff_of_true rfl ⟨htrig, hz, (canSend_iff _ _ _).mp hsend⟩
        · intro h1
          rw [he]
          exact ⟨rfl, rfl⟩
      · have hsendf : canSend st.last_alert now m.notify_interval_sec = false := by
          cases h : canSend st.last_alert now m.notify_interval_sec
          · rfl
          · exact absurd h hsend
        have hn : (evaluateThresholds m st now cpu mem ok).notifications = 0 := by
          unfold evaluateThresholds
          rw [triggerStep_rate_limited m st now cpu mem ok htrig hz hsendf,
            clearStep_notifications]
        refine ⟨?_, hle, ?_, hok⟩
        · rw [hn]
          refine iff_of_false (by norm_num) ?_
          rintro ⟨-, -, hall⟩
          have hct := (canSend_iff st.last_alert now m.notify_interval_sec).mpr hall
          rw [hsendf] at hct
          simp at hct
        · intro h1
          rw [hn] at h1
          exact absurd h1 (by norm_num)
  · have hn : (evaluateThresholds m st now cpu mem ok).notifications = 0 := by
      unfold evaluateThresholds
      rw [triggerStep_no_trigger m st now cpu mem ok htrig, clearStep_notifications]
    refine ⟨?_, hle, ?_, hok⟩
    · rw [hn]
      exact iff_of_false (by norm_num) (by rintro ⟨htr, -, -⟩; exact htrig htr)
    · intro h1
      rw [hn] at h1
      exact absurd h1 (by norm_num)

/-- Witness for `c3_one_combined_notification`: with the default
thresholds (90/70), no prior alert, cpu = 95, mem = 50 at time 100,
exactly one notification is attempted. -/
theorem c3_one_combined_notification_witness :
    (evaluateThresholds defaultMonitor idleState 100 95 50 true).notifications = 1 :=
  ((c3_one_combined_notification defaultMonitor idleState 100 95 50 true
      (by norm_num) (by norm_num)).1).mpr
    ⟨Or.inl (by norm_num [defaultMonitor]), by norm_num,
     by intro t h; simp [idleState] at h⟩

/-! ### C4 — hysteresis clearing transition -/

/-- Claim C4: on a tick entered in the Alerting state with non-negative
readings, the state transitions to Idle exactly when
cpu < (cpuFireThreshold − 15) and mem < (memFireThreshold − 15)
(clear margin = 15 percentage points), and whenever that clearing
condition holds, no Notifier call is made on the tick. -/
theorem c4_hysteresis_clear (m : ResourceMonitor) (st : AlertState)
    (now cpu mem : ℚ) (ok : Bool)
    (ha : st.alerting = true) (hc : 0 ≤ cpu) (hm : 0 ≤ mem) :
    ((evaluateThresholds m st now cpu mem ok).state.alerting = false ↔
      (cpu < m.cpu_threshold - 15 ∧ mem < m.mem_threshold - 15)) ∧
    ((cpu < m.cpu_threshold - 15 ∧ mem < m.mem_threshold - 15) →
      (evaluateThresholds m st now cpu mem ok).notifications = 0) := by
  constructor
  · have htr : (triggerStep m st now cpu mem ok).state.alerting = true :=
      triggerStep_alerting_mono m st now cpu mem ok ha
    have hiff := clearStep_alerting_iff m cpu mem
      (triggerStep m st now cpu mem ok) htr
    unfold evaluateThresholds
    rw [hiff, lt_clear_iff _ _ hc, lt_clear_iff _ _ hm]
  · rintro ⟨h1, h2⟩
    have hnt : ¬ (m.cpu_threshold ≤ cpu ∨ m.mem_threshold ≤ mem) := by
      rintro (h | h) <;> linarith
    unfold evaluateThresholds
    rw [triggerStep_no_trigger m st now cpu mem ok hnt, clearStep_notifications]

/-- Witness for `c4_hysteresis_clear`: with thresholds 90/70 and an
active alert, a sample cpu = 70 (< 75), mem = 50 (< 55) clears the
alerting flag. -/
theorem c4_hysteresis_clear_witness :
    (evaluateThresholds defaultMonitor alertingState 5 70 50 true).state.alerting
      = false :=
  ((c4_hysteresis_clear defaultMonitor alertingState 5 70 50 true rfl
      (by norm_num) (by norm_num)).1).mpr
    ⟨by norm_num [defaultMonitor], by norm_num [defaultMonitor]⟩

/-! ### C5 — degenerate all-zero guard -/

/-- Claim C5: on any tick where a threshold breach is detected but both
readings are ≤ 0, no Notifier call is made (the breach is suppressed
with only a log message) and the stored last-alert time is untouched. -/
theorem c5_zero_guard_suppression (m : ResourceMonitor) (st : AlertState)
    (now cpu mem : ℚ) (ok : Bool)
    (htrig : m.cpu_threshold ≤ cpu ∨ m.mem_threshold ≤ mem)
    (hz : cpu ≤ 0 ∧ mem ≤ 0) :
    (evaluateThresholds m st now cpu mem ok).notifications = 0 ∧
    (evaluateThresholds m st now cpu mem ok).state.last_alert = st.last_alert := by
  unfold evaluateThresholds
  rw [triggerStep_zero_guard m st now cpu mem ok htrig hz]
  exact ⟨clearStep_notifications m cpu mem _, by rw [clearStep_last_alert]⟩

/-- Witness for `c5_zero_guard_suppression`: thresholds 0/0 and a
cpu = 0, mem = 0 sample breach the thresholds numerically, yet no
notification is attempted. -/
theorem c5_zero_guard_suppression_witness :
    (evaluateThresholds zeroThresholdMonitor idleState 1 0 0 true).notifications
      = 0 :=
  (c5_zero_guard_suppression zeroThresholdMonitor idleState 1 0 0 true
    (Or.inl (by norm_num [zeroThresholdMonitor, defaultMonitor]))
    ⟨le_refl 0, le_refl 0⟩).1

/-! ### C7 — observer exceptions are swallowed, but not logged -/

/-- Claim C7 (counterexample): a concrete raising Observer callback is
caught but NOT logged — the `except Exception:` handler at
src/sysmon.py lines 332-333 is `pass`, so it makes zero `self._log`
calls, refuting the claim's "caught and logged".  The isolation part
does hold at the same input: the tick outcome equals that of a normal
observer. -/
theorem c7_counterexample :
    observerBlockLogs (Except.error "observer failure") = 0 ∧
    tickObserveAndEvaluate (Except.error "observer failure") defaultMonitor
        idleState 1 50 50 true
      = evaluateThresholds defaultMonitor idleState 1 50 50 true :=
  ⟨rfl, rfl⟩

/-- Claim C7 (amended): an exception raised by the Observer's
`on_update` callback is caught silently — the handler is `pass` and
makes no log call — and never propagated: the tick's outcome is
identical to a normally returning observer, it does not modify engine
state, and the same tick's threshold evaluation (with any Notifier call
it makes) still happens. -/
theorem c7_amended (e : String) (m : ResourceMonitor)
    (st : AlertState) (now cpu mem : ℚ) (ok : Bool) :
    observerBlockLogs (Except.error e) = 0 ∧
    tickObserveAndEvaluate (Except.error e) m st now cpu mem ok
      = tickObserveAndEvaluate (Except.ok ()) m st now cpu mem ok ∧
    tickObserveAndEvaluate (Except.error e) m st now cpu mem ok
      = evaluateThresholds m st now cpu mem ok :=
  ⟨rfl, rfl, rfl⟩

/-! ### C8 — constructor does not fail fast -/

/-- Claim C8 (counterexample): constructing with `interval = 0` and
`notify_interval_sec = 0` — both below the documented minimum of 1 —
does not surface any configuration error: the constructor returns a
monitor normally, silently clamping both values to 1. -/
theorem c8_counterexample :
    ResourceMonitor.init 90 70 0 5 0
      = Except.ok
          { cpu_threshold := 90
            mem_threshold := 70
            interval := 1
            rate_limit_sec := 300
            notify_interval_sec := 1
            running := false
            last_alert := none
            alerting := false
            last_net_counters := none
            last_net_time := none } := by
  rfl

/-- Claim C8 (amended): the constructor never surfaces an error for
invalid interval values; instead it silently clamps `interval` to a
minimum of 1 and `notify_interval_sec` to a minimum of 1
(and stores the thresholds unchanged). -/
theorem c8_amended (ct mt : ℚ) (iv rl ni : Int) :
    ∃ m, ResourceMonitor.init ct mt iv rl ni = Except.ok m ∧
      m.interval = max 1 iv ∧ m.notify_interval_sec = max 1 ni ∧
      1 ≤ m.interval ∧ 1 ≤ m.notify_interval_sec ∧
      m.cpu_threshold = ct ∧ m.mem_threshold = mt :=
  ⟨_, rfl, rfl, rfl, le_max_left 1 iv, le_max_left 1 ni, rfl, rfl⟩

/-! ### C9 — start is idempotent -/

/-- `start` on an already-running monitor returns immediately. -/
lemma start_of_running (m : ResourceMonitor) (h : m.running = true) :
    ResourceMonitor.start m = (m, false) := by
  unfold ResourceMonitor.start
  rw [if_pos h]

/-- After any `start` call the running flag is set. -/
lemma start_sets_running (m : ResourceMonitor) :
    ((ResourceMonitor.start m).1).running = true := by
  unfold ResourceMonitor.start
  split_ifs with h
  · exact h
  · rfl

/-- Claim C9: `start()` is idempotent — a second `start()` leaves the
monitor state unchanged and spawns no second sampling thread (the
boolean component is `false`), and calling `start()` while already
running is a no-op. -/
theorem c9_start_idempotent (m : ResourceMonitor) :
    ResourceMonitor.start ((ResourceMonitor.start m).1)
      = ((ResourceMonitor.start m).1, false) ∧
    (m.running = true → ResourceMonitor.start m = (m, false)) :=
  ⟨start_of_running _ (start_sets_running m), fun h => start_of_running m h⟩

/-- Witness for `c9_start_idempotent` at a concrete running monitor. -/
theorem c9_start_idempotent_witness :
    ResourceMonitor.start runningMonitor = (runningMonitor, false) :=
  (c9_start_idempotent runningMonitor).2 rfl

/-! ### C10 — suppressed breaches leave the alert state unchanged -/

/-- Claim C10: on any tick where a breach is detected but the
notification is suppressed — by the all-zero degenerate guard or by the
rate-limit window — both `_last_alert` and `_alerting` are left exactly
as they were. -/
theorem c10_suppressed_breach_frame (m : ResourceMonitor) (st : AlertState)
    (now cpu mem : ℚ) (ok : Bool)
    (hc : 0 ≤ cpu) (hm : 0 ≤ mem)
    (htrig : m.cpu_threshold ≤ cpu ∨ m.mem_threshold ≤ mem)
    (hsup : (cpu ≤ 0 ∧ mem ≤ 0) ∨
      canSend st.last_alert now m.notify_interval_sec = false) :
    (evaluateThresholds m st now cpu mem ok).state.last_alert = st.last_alert ∧
    (evaluateThresholds m st now cpu mem ok).state.alerting = st.alerting := by
  have hts : triggerStep m st now cpu mem ok = EvalResult.mk st 0 := by
    rcases hsup with hz | hsendf
    · exact triggerStep_zero_guard m st now cpu mem ok htrig hz
    · by_cases hz : cpu ≤ 0 ∧ mem ≤ 0
      · exact triggerStep_zero_guard m st now cpu mem ok htrig hz
      · exact triggerStep_rate_limited m st now cpu mem ok htrig hz hsendf
  have hcl : clearStep m cpu mem (EvalResult.mk st 0) = EvalResult.mk st 0 :=
    clearStep_id m cpu mem _ (by
      rintro ⟨-, h1, h2⟩
      exact breach_blocks_clear m.cpu_threshold m.mem_threshold cpu mem
        hc hm htrig ⟨h1, h2⟩)
  unfold evaluateThresholds
  rw [hts, hcl]
  exact ⟨rfl, rfl⟩

/-- Witness for `c10_suppressed_breach_frame`: cpu = 95 breaches the
default 90 threshold 5 seconds after the last alert (inside the 10 s
rate-limit window); the stored last-alert time is unchanged. -/
theorem c10_suppressed_breach_frame_witness :
    (evaluateThresholds defaultMonitor recentAlertState 5 95 10 true).state.last_alert
      = recentAlertState.last_alert :=
  (c10_suppressed_breach_frame defaultMonitor recentAlertState 5 95 10 true
    (by norm_num) (by norm_num) (Or.inl (by norm_num [defaultMonitor]))
    (Or.inr (by norm_num [canSend, recentAlertState, defaultMonitor]))).1
